import Mathlib

/-!
Verification of the student-list Flask application (src/app.py) against its
natural-language specification.

The embedding models:
- the `Student` ORM model (id integer primary key, name string), as a record;
- the database state, as a list of rows plus the autoincrement counter
  maintained by the storage engine (SQLite assigns ids 1, 2, 3, ...);
- the `POST /student` handler `add_student`, whose try block reads the form
  field `student` (raising a key error when absent), constructs a Student,
  adds it to the session and commits; the commit is an interaction with the
  external database engine and may fail for environmental reasons, so it is
  modelled by an oracle of type `Except String Unit` carried by the request;
- the `GET /` handler `homepage`, which fetches all rows, prints them, and
  renders the index template over them;
- sequences of requests, to state reachability and frame properties.

Handlers return the new database state, the list of lines printed to standard
output, and the HTTP response.
-/

/-- The `Student` ORM model of src/app.py: an integer primary key `id`
assigned by the storage engine and a string `name` (`nullable=False`, so a
string is always present; no further validation). -/
structure Student where
  id : Nat
  name : String
deriving DecidableEq, Repr

/-- The persisted database state: the rows of the single `student` table in
storage order, plus the next id the engine will assign (SQLite starts at 1). -/
structure DBState where
  rows : List Student
  nextId : Nat
deriving DecidableEq, Repr

/-- The freshly created database (after `db.create_all()`): no rows, first
id to be assigned is 1. -/
def DBState.empty : DBState := { rows := [], nextId := 1 }

/-- An HTTP response: either a redirect (HTTP 302) to a location, or a
rendered page with a status code and the list of student names it displays. -/
inductive Response where
  | redirect (location : String)
  | page (status : Nat) (studentNames : List String)
deriving DecidableEq, Repr

/-- The names listed on a response (empty for a redirect). -/
def Response.listedNames : Response → List String
  | Response.page _ names => names
  | Response.redirect _ => []

/-- Result of running a handler: the database state afterwards, the lines
printed to standard output, and the HTTP response. -/
structure HandlerResult where
  state : DBState
  printed : List String
  response : Response
deriving DecidableEq, Repr

/-- Lookup of a form field, as `request.form[key]` does: the first value
bound to the key, or nothing when the field is absent (in which case the
Python code raises a key error). -/
def formGet (form : List (String × String)) (key : String) : Option String :=
  (form.find? (fun p => p.1 = key)).map Prod.snd

/-- The message of the error Flask raises when `request.form['student']` is
accessed and the field is absent from the request body. -/
def keyErrorMsg : String :=
  "400 Bad Request: The browser (or proxy) sent a request that this server could not understand."

/-- The body of the try block of `add_student` in src/app.py:
`name = request.form['student']; student = Student(name=name);
db.session.add(student); db.session.commit()`. Returns the new database
state, or the message of the exception raised. The `commit` argument is the
outcome of the interaction with the database engine: `Except.ok ()` when the
commit succeeds, `Except.error msg` when the engine fails with message
`msg`. On success exactly one row is appended, with the engine-assigned id
and the submitted name verbatim. -/
def tryAddStudent (st : DBState) (form : List (String × String))
    (commit : Except String Unit) : Except String DBState :=
  match formGet form "student" with
  | none => Except.error keyErrorMsg
  | some name =>
    match commit with
    | Except.error msg => Except.error msg
    | Except.ok _ =>
      Except.ok { rows := st.rows ++ [{ id := st.nextId, name := name }],
                  nextId := st.nextId + 1 }

/-- The `POST /student` handler `add_student` of src/app.py: run the try
block; on an exception, print `Exception when adding student: <message>` and
leave the database unchanged (the failed transaction is rolled back at
request teardown, so the persisted state is untouched); in every case return
a redirect to `/`. -/
def add_student (st : DBState) (form : List (String × String))
    (commit : Except String Unit) : HandlerResult :=
  match tryAddStudent st form commit with
  | Except.ok st1 =>
    { state := st1, printed := [], response := Response.redirect "/" }
  | Except.error msg =>
    { state := st, printed := ["Exception when adding student: " ++ msg],
      response := Response.redirect "/" }

/-- Modelled from the spec: the template `templates/index.html` is not under
src/; the spec says the rendered page lists all student names, and a GET on
an empty database renders a page with zero listed students and HTTP 200. -/
def render_index (students : List Student) : Response :=
  Response.page 200 (students.map Student.name)

/-- The `GET /` handler `homepage` of src/app.py: fetch all rows
(`Student.query.all()`, storage order), print them, and render the index
template over them. The database is not modified. -/
def homepage (st : DBState) : HandlerResult :=
  { state := st,
    printed := [toString (st.rows.map Student.name)],
    response := render_index st.rows }

/-- A request to the application: a GET of `/`, or a POST of `/student`
carrying its form body and the commit outcome the database engine will
produce for it. -/
inductive Request where
  | get
  | post (form : List (String × String)) (commit : Except String Unit)

/-- The database state after serving one request. -/
def stepReq (st : DBState) : Request → DBState
  | Request.get => (homepage st).state
  | Request.post form commit => (add_student st form commit).state

/-- The database state after serving a sequence of requests. -/
def run (st : DBState) (reqs : List Request) : DBState :=
  reqs.foldl stepReq st

/-- The values of the `student` form field of the POSTs of a request
sequence, in order. -/
def submittedNames : List Request → List String
  | [] => []
  | Request.get :: rs => submittedNames rs
  | Request.post form _ :: rs =>
    (match formGet form "student" with
     | some n => [n]
     | none => []) ++ submittedNames rs

/-- A POST of `/student` with the given name and a successful commit. -/
def postOk (name : String) : Request :=
  Request.post [("student", name)] (Except.ok ())

lemma submittedNames_cons (q : Request) (rs : List Request) :
    submittedNames (q :: rs) = submittedNames [q] ++ submittedNames rs := by
  cases q <;> simp [submittedNames]

lemma stepReq_rows_mem (st : DBState) (q : Request) (r : Student)
    (h : r ∈ (stepReq st q).rows) :
    r ∈ st.rows ∨ r.name ∈ submittedNames [q] := by
  cases q with
  | get => exact Or.inl h
  | post form commit =>
    cases hf : formGet form "student" with
    | none =>
      left
      simpa [stepReq, add_student, tryAddStudent, hf] using h
    | some name =>
      cases commit with
      | error msg =>
        left
        simpa [stepReq, add_student, tryAddStudent, hf] using h
      | ok u =>
        simp [stepReq, add_student, tryAddStudent, hf] at h
        rcases h with h | h
        · exact Or.inl h
        · right
          simp [submittedNames, hf, h]

lemma run_rows_mem (reqs : List Request) :
    ∀ (st : DBState) (r : Student), r ∈ (run st reqs).rows →
      r ∈ st.rows ∨ r.name ∈ submittedNames reqs := by
  induction reqs with
  | nil => intro st r h; exact Or.inl h
  | cons q rs ih =>
    intro st r h
    have h1 : run st (q :: rs) = run (stepReq st q) rs := rfl
    rw [h1] at h
    rcases ih (stepReq st q) r h with h2 | h2
    · rcases stepReq_rows_mem st q r h2 with h3 | h3
      · exact Or.inl h3
      · right
        rw [submittedNames_cons]
        exact List.mem_append_left _ h3
    · right
      rw [submittedNames_cons]
      exact List.mem_append_right _ h2

/-- C1: whenever the try block of `add_student` raises an exception (during
form lookup, construction or commit), the exception is caught, its message is
printed to standard output as `Exception when adding student: <message>`, and
the handler still returns a redirect to `/` with no error indication in the
response. -/
theorem add_student_swallows_exceptions (st : DBState)
    (form : List (String × String)) (commit : Except String Unit) (msg : String)
    (h : tryAddStudent st form commit = Except.error msg) :
    (add_student st form commit).printed =
      ["Exception when adding student: " ++ msg] ∧
    (add_student st form commit).response = Response.redirect "/" := by
  simp [add_student, h]

theorem add_student_swallows_exceptions_witness :
    (add_student DBState.empty [("student", "Alice")]
        (Except.error "disk I/O error")).printed =
      ["Exception when adding student: " ++ "disk I/O error"] ∧
    (add_student DBState.empty [("student", "Alice")]
        (Except.error "disk I/O error")).response = Response.redirect "/" :=
  add_student_swallows_exceptions DBState.empty [("student", "Alice")]
    (Except.error "disk I/O error") "disk I/O error" rfl

/-- C2 counterexample: the claim as stated is false. Submitting the non-empty
name `Alice` via POST /student on which the commit fails (the exception is
swallowed by the handler) leaves the database empty, so the subsequent GET /
does not list `Alice`. -/
theorem post_failed_commit_name_missing :
    ¬ "Alice" ∈ (homepage (add_student DBState.empty [("student", "Alice")]
        (Except.error "disk I/O error")).state).response.listedNames := by
  decide

/-- C2 amended: for every non-empty name string bound to the form field
`student` of a POST /student whose commit succeeds, the immediately
subsequent GET / renders a page whose student list includes that name. -/
theorem post_then_get_lists_name (st : DBState)
    (form : List (String × String)) (name : String)
    (hform : formGet form "student" = some name) (_hne : name ≠ "") :
    name ∈ (homepage (add_student st form
        (Except.ok ())).state).response.listedNames := by
  simp [add_student, tryAddStudent, hform, homepage, render_index,
    Response.listedNames]

theorem post_then_get_lists_name_witness :
    "Alice" ∈ (homepage (add_student DBState.empty [("student", "Alice")]
        (Except.ok ())).state).response.listedNames :=
  post_then_get_lists_name DBState.empty [("student", "Alice")] "Alice"
    rfl (by decide)

/-- C3 counterexample: the claim as stated is false. One POST /student with
the `student` field present whose commit fails results in zero rows, not one. -/
theorem single_failed_post_yields_no_row :
    (run DBState.empty [Request.post [("student", "Alice")]
        (Except.error "disk I/O error")]).rows.length ≠ 1 := by
  decide

/-- C3 amended: submitting N names via N POST /student requests, each with
the `student` field present and each whose commit succeeds, results in
exactly N rows in the student table: each such POST appends exactly one row,
and no POST deduplicates against or updates an existing row, even when the
same name is submitted repeatedly (the names below are arbitrary and may
repeat). -/
theorem successful_posts_append_one_row_each (st : DBState)
    (names : List String) :
    (run st (names.map postOk)).rows.length
      = st.rows.length + names.length := by
  induction names generalizing st with
  | nil => simp [run]
  | cons n ns ih =>
    have h1 : run st ((n :: ns).map postOk)
        = run (stepReq st (postOk n)) (ns.map postOk) := rfl
    rw [h1, ih]
    simp [stepReq, postOk, add_student, tryAddStudent, formGet]
    omega

/-- C4: a POST /student whose form body lacks the `student` field does not
crash the handler: the key error is caught, printed, the database is left
unchanged, and the handler returns a redirect to `/`. -/
theorem missing_field_still_redirects (st : DBState)
    (form : List (String × String)) (commit : Except String Unit)
    (h : formGet form "student" = none) :
    add_student st form commit =
      { state := st,
        printed := ["Exception when adding student: " ++ keyErrorMsg],
        response := Response.redirect "/" } := by
  simp [add_student, tryAddStudent, h]

theorem missing_field_still_redirects_witness :
    add_student DBState.empty [("name", "Alice")] (Except.ok ()) =
      { state := DBState.empty,
        printed := ["Exception when adding student: " ++ keyErrorMsg],
        response := Response.redirect "/" } :=
  missing_field_still_redirects DBState.empty [("name", "Alice")]
    (Except.ok ()) (by decide)

/-- C5 counterexample: the claim as stated is false. The state reached from
the empty database by one POST /student with `student=` (the empty string)
and a successful commit contains a row whose name is the empty string: no
non-emptiness validation is applied. -/
theorem empty_name_row_reachable :
    ¬ (∀ r ∈ (run DBState.empty [postOk ""]).rows, r.name ≠ "") := by
  decide

/-- C5 amended: in every state reachable from the empty database by a
sequence of GET / and POST /student requests, every row's name is a string
that was submitted as the `student` form field of some POST of the sequence
(hence non-null, a string being always present), but it may be the empty
string, since no validation is applied. -/
theorem student_names_always_submitted (reqs : List Request) (r : Student)
    (h : r ∈ (run DBState.empty reqs).rows) :
    r.name ∈ submittedNames reqs := by
  rcases run_rows_mem reqs DBState.empty r h with h1 | h1
  · simp [DBState.empty] at h1
  · exact h1

theorem student_names_always_submitted_witness :
    ({ id := 1, name := "Alice" } : Student).name
      ∈ submittedNames [postOk "Alice"] :=
  student_names_always_submitted [postOk "Alice"]
    { id := 1, name := "Alice" } (by decide)

/-- C6: insert failure is atomic. On every POST /student on which the try
block raises an exception, the database state after the request equals the
database state before it. -/
theorem failed_post_leaves_state_unchanged (st : DBState)
    (form : List (String × String)) (commit : Except String Unit)
    (msg : String) (h : tryAddStudent st form commit = Except.error msg) :
    (add_student st form commit).state = st := by
  simp [add_student, h]

theorem failed_post_leaves_state_unchanged_witness :
    (add_student DBState.empty [("student", "Alice")]
        (Except.error "disk I/O error")).state = DBState.empty :=
  failed_post_leaves_state_unchanged DBState.empty [("student", "Alice")]
    (Except.error "disk I/O error") "disk I/O error" rfl

/-- C7: GET / fetches all Student rows in storage order and renders a page
with HTTP status 200 listing exactly the names of all stored students; in
particular, on the empty database it renders a page with zero listed
students and status 200. -/
theorem homepage_lists_all_names (st : DBState) :
    (homepage st).response = Response.page 200 (st.rows.map Student.name) ∧
    (homepage DBState.empty).response = Response.page 200 [] := by
  exact ⟨rfl, rfl⟩

/-- A 300-character name, used to check that strings longer than the declared
VARCHAR(255) width are stored verbatim (SQLite enforces no length limit and
the code applies no truncation). -/
def longName : String := String.mk (List.replicate 300 (Char.ofNat 97))

/-- C8: rows are never updated or deleted. After serving any single request
(GET / or POST /student) from any state, the rows present before are still
present, unchanged (same id, same name) and in the same positions: the new
row list is the old one followed by some (possibly empty) tail. -/
theorem rows_never_updated_or_deleted (st : DBState) (q : Request) :
    ∃ tail, (stepReq st q).rows = st.rows ++ tail := by
  cases q with
  | get => exact ⟨[], by simp [stepReq, homepage]⟩
  | post form commit =>
    cases hf : formGet form "student" with
    | none =>
      exact ⟨[], by simp [stepReq, add_student, tryAddStudent, hf]⟩
    | some name =>
      cases commit with
      | error msg =>
        exact ⟨[], by simp [stepReq, add_student, tryAddStudent, hf]⟩
      | ok u =>
        exact ⟨[{ id := st.nextId, name := name }],
          by simp [stepReq, add_student, tryAddStudent, hf]⟩

/-- C9: when the form field `student` is present and the commit succeeds,
the inserted row's name equals the submitted string exactly: no trimming,
escaping, truncation or non-emptiness check is applied, the row is appended
verbatim with the engine-assigned id (so the empty string and strings longer
than 255 characters are stored as submitted). -/
theorem inserted_name_verbatim (st : DBState)
    (form : List (String × String)) (name : String)
    (h : formGet form "student" = some name) :
    (add_student st form (Except.ok ())).state.rows
      = st.rows ++ [{ id := st.nextId, name := name }] ∧
    (add_student st form (Except.ok ())).state.nextId = st.nextId + 1 := by
  simp [add_student, tryAddStudent, h]

theorem inserted_name_verbatim_witness :
    ((add_student DBState.empty [("student", "")] (Except.ok ())).state.rows
        = DBState.empty.rows
          ++ [{ id := DBState.empty.nextId, name := "" }] ∧
      (add_student DBState.empty [("student", "")] (Except.ok ())).state.nextId
        = DBState.empty.nextId + 1) ∧
    ((add_student DBState.empty [("student", longName)]
          (Except.ok ())).state.rows
        = DBState.empty.rows
          ++ [{ id := DBState.empty.nextId, name := longName }] ∧
      (add_student DBState.empty [("student", longName)]
          (Except.ok ())).state.nextId
        = DBState.empty.nextId + 1) :=
  ⟨inserted_name_verbatim DBState.empty [("student", "")] "" rfl,
   inserted_name_verbatim DBState.empty [("student", longName)] longName rfl⟩

/-- C10: the HTTP response of POST /student is constant. Any two requests,
whatever their form bodies and commit outcomes, receive the same response,
namely a redirect to `/`: the response reveals nothing about the body or the
outcome. -/
theorem post_response_constant (st1 : DBState)
    (form1 : List (String × String)) (commit1 : Except String Unit)
    (st2 : DBState) (form2 : List (String × String))
    (commit2 : Except String Unit) :
    (add_student st1 form1 commit1).response
      = (add_student st2 form2 commit2).response ∧
    (add_student st1 form1 commit1).response = Response.redirect "/" := by
  have h : ∀ (s : DBState) (f : List (String × String))
      (c : Except String Unit),
      (add_student s f c).response = Response.redirect "/" := by
    intro s f c
    cases htry : tryAddStudent s f c <;> simp [add_student, htry]
  exact ⟨(h st1 form1 commit1).trans (h st2 form2 commit2).symm,
    h st1 form1 commit1⟩
